import Mathlib

/-!
# AnomCAT — shallow embedding of the portfolio growth engine

`src/app.js` holds two variants of the same application:

* Variant A — `class AnomCAT` (lines 1–442): `handleDeposit`, `startBot`
  (the 5-second growth tick), `simulateTrade`, `saveToStorage`,
  `loadFromStorage`.  Its growth tick divides elapsed milliseconds by
  `1000*60*60*24*30` (a naive 30-day month).
* Variant B — the v1.01 `AnomCAT` global object (lines 443–1060):
  `AnomCAT.deposit`, `AnomCAT.updatePortfolio`, `AnomCAT.addTransaction`,
  `AnomCAT.saveToStorage`, `AnomCAT.loadFromStorage`.  Its tick divides by
  `1000*60*60*24*DAYS_PER_MONTH` with `DAYS_PER_MONTH = 30.436875`.

JavaScript numbers are idealised as real numbers (`ℝ`), timestamps as `ℤ`
milliseconds, `Math.pow` as `Real.rpow`.  `Math.random()` draws are passed
in explicitly as oracle records (`RandA`, `RandB`), so every operation is a
pure state transformer.  `parseFloat` results are `Option ℝ` with `none`
standing for `NaN`.  `localStorage` is a record of per-key cells; a cell is
`missing` (getItem returns null), `corrupt` (JSON.parse of it throws), or a
parsed value.
-/

noncomputable section

namespace AnomCat

/-- A `{time, value}` balance snapshot pushed onto `portfolio.history`. -/
structure Snapshot where
  time : Int
  value : ℝ

/-- Variant A trade record built by `simulateTrade` (src/app.js:129-135):
`{time, type, amount, profit}` with `profit` an unconditional random boolean. -/
structure TradeA where
  time : Int
  type : String
  amount : ℝ
  profit : Bool

/-- Variant A portfolio object (src/app.js:6-11). -/
structure PortfolioA where
  initial : ℝ
  current : ℝ
  history : List Snapshot
  trades : List TradeA

/-- Variant A whole mutable state of the `AnomCAT` class instance
(src/app.js:5-15). -/
structure StateA where
  portfolio : PortfolioA
  botActive : Bool
  monthlyReturn : ℝ
  lastUpdate : Int
  currentFeed : String

/-- Variant A constructor state (src/app.js:5-15), parametrised by the
`Date.now()` value at construction time. -/
def initA (t0 : Int) : StateA :=
  { portfolio := { initial := 0, current := 0, history := [], trades := [] }
    botActive := false
    monthlyReturn := 0.013
    lastUpdate := t0
    currentFeed := "mempool" }

/-- A `push` followed by `if length > 100 shift` on `portfolio.history`
(src/app.js:104-112 and 867-875). -/
def pushHistory (h : List Snapshot) (x : Snapshot) : List Snapshot :=
  if (h ++ [x]).length > 100 then (h ++ [x]).tail else h ++ [x]

/-- A `push` followed by `if length > 50 shift` on variant A's trades
(src/app.js:137-142). -/
def pushTradeA (t : List TradeA) (x : TradeA) : List TradeA :=
  if (t ++ [x]).length > 50 then (t ++ [x]).tail else t ++ [x]

/-- Embeds `simulateTrade(type, amount)` (src/app.js:129-146); the random
`Math.random() > 0.4` profit draw is the `profitR` argument. -/
def simulateTrade (now : Int) (profitR : Bool) (type : String) (amount : ℝ)
    (s : StateA) : StateA :=
  { s with portfolio :=
      { s.portfolio with trades :=
          (pushTradeA s.portfolio.trades ⟨now, type, amount, profitR⟩) } }

/-- The portfolio part of a successful variant A deposit
(src/app.js:65-74): first deposit initialises everything, later deposits
only add to `current`. -/
def depositPortfolioA (now : Int) (a : ℝ) (p : PortfolioA) : PortfolioA :=
  if p.initial = 0 then
    { p with initial := a, current := a, history := [⟨now, a⟩] }
  else
    { p with current := p.current + a }

/-- Embeds `handleDeposit()` (src/app.js:57-86).  The DOM-read `parseFloat` result
is the `amount` argument (`none` = `NaN`).  Returns `false` paired with the
unchanged state when the input is rejected (the `alert` path), `true` with
the updated state otherwise.  The trailing `simulateTrade('BUY', amount*0.1)`
call of line 85 takes the oracle `profitR`. -/
def handleDeposit (now : Int) (profitR : Bool) (amount : Option ℝ)
    (s : StateA) : Bool × StateA :=
  match amount with
  | none => (false, s)
  | some a =>
    if a ≤ 0 then (false, s)
    else
      (true, simulateTrade now profitR "BUY" (a * 0.1)
        { s with portfolio := (depositPortfolioA now a s.portfolio)
                 botActive := true
                 lastUpdate := now })

/-- Variant A months-elapsed computation (src/app.js:94):
`elapsed / (1000 * 60 * 60 * 24 * 30)`. -/
def monthsElapsedA (now lastUpdate : Int) : ℝ :=
  ((now : ℝ) - (lastUpdate : ℝ)) / (1000 * 60 * 60 * 24 * 30)

/-- Variant A growth (src/app.js:97):
`current * Math.pow(1 + monthlyReturn, monthsElapsed) - current`. -/
def growthA (s : StateA) (now : Int) : ℝ :=
  s.portfolio.current * (1 + s.monthlyReturn) ^ monthsElapsedA now s.lastUpdate
    - s.portfolio.current

/-- The `Math.random()` draws one iteration of variant A's growth tick can
make (src/app.js:119-122): the `> 0.7` trade gate, the trade-amount draw,
the BUY/SELL coin flip, and `simulateTrade`'s profit flag. -/
structure RandA where
  doTrade : Bool
  amtFrac : ℝ
  isBuy : Bool
  profit : Bool

/-- The state mutation of src/app.js:100-112 — add the growth to `current`,
stamp `lastUpdate`, push the new `{now, current}` snapshot. -/
def applyGrowthA (now : Int) (s : StateA) : StateA :=
  { s with
    portfolio :=
      { s.portfolio with
        current := s.portfolio.current + growthA s now
        history := (pushHistory s.portfolio.history
          ⟨now, s.portfolio.current + growthA s now⟩) }
    lastUpdate := now }

/-- The `Math.random() > 0.7` guarded trade simulation at the end of a
variant A growth tick (src/app.js:118-123). -/
def tradeAfterTickA (now : Int) (rng : RandA) (s1 : StateA) : StateA :=
  if rng.doTrade then
    simulateTrade now rng.profit (if rng.isBuy then "BUY" else "SELL")
      (s1.portfolio.current * (rng.amtFrac * 0.05 + 0.01)) s1
  else s1

/-- One iteration of variant A's `startBot` interval body (src/app.js:90-126). -/
def tickA (now : Int) (rng : RandA) (s : StateA) : StateA :=
  if s.botActive ∧ s.portfolio.current > 0 then
    if growthA s now > 0.00000001 then
      tradeAfterTickA now rng (applyGrowthA now s)
    else s
  else s

/-- The `DAYS_PER_MONTH` constant of variant B (src/app.js:458). -/
def DAYS_PER_MONTH : ℝ := 30.436875

/-- The `SATOSHI_THRESHOLD` constant of variant B (src/app.js:459). -/
def SATOSHI_THRESHOLD : ℝ := 0.00000001

/-- The `DEFAULT_BTC_EUR_RATE` constant of variant B (src/app.js:460). -/
def DEFAULT_BTC_EUR_RATE : ℝ := 45000

/-- Variant B transaction record built by `AnomCAT.addTransaction`
(src/app.js:821-827): `profit` is a random boolean for `'trade'` records and
`null` otherwise. -/
structure Txn where
  id : Int
  time : Int
  type : String
  amount : ℝ
  profit : Option Bool

/-- Variant B portfolio object (src/app.js:473-479). -/
structure PortfolioB where
  btcBalance : ℝ
  eurBalance : ℝ
  initialBtc : ℝ
  history : List Snapshot
  trades : List Txn

/-- Variant B bot settings (src/app.js:482-486). -/
structure BotB where
  active : Bool
  monthlyReturn : ℝ
  lastUpdate : Int

/-- Variant B mutable global state of the `AnomCAT` object
(src/app.js:467-499), restricted to the engine fields. -/
structure StateB where
  currency : String
  btcToEurRate : ℝ
  portfolio : PortfolioB
  bot : BotB

/-- Variant B initial state (src/app.js:467-499), parametrised by the
`Date.now()` value at script evaluation. -/
def initB (t0 : Int) : StateB :=
  { currency := "BTC"
    btcToEurRate := DEFAULT_BTC_EUR_RATE
    portfolio := { btcBalance := 0, eurBalance := 0, initialBtc := 0
                   history := [], trades := [] }
    bot := { active := false, monthlyReturn := 0.013, lastUpdate := t0 } }

/-- An `unshift` followed by `if length > 100 then slice(0, 100)` on variant B's
trades (src/app.js:829-834). -/
def pushTxnB (t : List Txn) (x : Txn) : List Txn :=
  if (x :: t).length > 100 then (x :: t).take 100 else x :: t

/-- Embeds `AnomCAT.addTransaction(type, amount)` (src/app.js:820-837); `profitR`
is the `Math.random() > 0.4` draw of line 826, consulted only for `'trade'`
records.  `id` and `time` are both `Date.now()`. -/
def addTransaction (now : Int) (profitR : Bool) (type : String) (amount : ℝ)
    (s : StateB) : StateB :=
  let txn : Txn :=
    ⟨now, now, type, amount, if type = "trade" then some profitR else none⟩
  { s with portfolio :=
      { s.portfolio with trades := (pushTxnB s.portfolio.trades txn) } }

/-- The portfolio part of a valid variant B deposit (src/app.js:796-805). -/
def depositPortfolioB (now : Int) (a : ℝ) (p : PortfolioB) : PortfolioB :=
  if p.initialBtc = 0 then
    { p with initialBtc := a, btcBalance := a, history := [⟨now, a⟩] }
  else
    { p with btcBalance := p.btcBalance + a }

/-- Embeds `AnomCAT.deposit(btcAmount)` (src/app.js:791-818): the full state update of a valid
deposit, ending in the `addTransaction('deposit', btcAmount)` call of
src/app.js:812 (whose random draw is never consulted for deposits). -/
def deposit (now : Int) (amount : Option ℝ) (s : StateB) : Bool × StateB :=
  match amount with
  | none => (false, s)
  | some a =>
    if a ≤ 0 then (false, s)
    else
      (true, addTransaction now false "deposit" a
        { s with
          portfolio :=
            { depositPortfolioB now a s.portfolio with
              eurBalance :=
                ((depositPortfolioB now a s.portfolio).btcBalance *
                  s.btcToEurRate) }
          bot := { s.bot with active := true, lastUpdate := now } })

/-- Variant B months-elapsed computation (src/app.js:856):
`elapsed / (1000 * 60 * 60 * 24 * DAYS_PER_MONTH)`. -/
def monthsElapsedB (now lastUpdate : Int) : ℝ :=
  ((now : ℝ) - (lastUpdate : ℝ)) / (1000 * 60 * 60 * 24 * DAYS_PER_MONTH)

/-- Variant B growth (src/app.js:859):
`btcBalance * (Math.pow(1 + monthlyReturn, monthsElapsed) - 1)`. -/
def growthB (s : StateB) (now : Int) : ℝ :=
  s.portfolio.btcBalance *
    ((1 + s.bot.monthlyReturn) ^ monthsElapsedB now s.bot.lastUpdate - 1)

/-- The `Math.random()` draws of one `updatePortfolio` call
(src/app.js:878-880). -/
structure RandB where
  doTrade : Bool
  amtFrac : ℝ
  profit : Bool

/-- The state mutation of src/app.js:862-875 — add the growth to
`btcBalance`, recompute `eurBalance`, stamp `lastUpdate`, push the new
snapshot. -/
def applyGrowthB (now : Int) (s : StateB) : StateB :=
  { s with
    portfolio :=
      { s.portfolio with
        btcBalance := s.portfolio.btcBalance + growthB s now
        eurBalance := (s.portfolio.btcBalance + growthB s now) * s.btcToEurRate
        history := (pushHistory s.portfolio.history
          ⟨now, s.portfolio.btcBalance + growthB s now⟩) }
    bot := { s.bot with lastUpdate := now } }

/-- The `Math.random() > 0.7` guarded trade simulation at the end of a
variant B growth tick (src/app.js:877-881). -/
def tradeAfterTickB (now : Int) (rng : RandB) (s1 : StateB) : StateB :=
  if rng.doTrade then
    addTransaction now rng.profit "trade"
      (s1.portfolio.btcBalance * (rng.amtFrac * 0.05 + 0.01)) s1
  else s1

/-- Embeds `AnomCAT.updatePortfolio()` (src/app.js:851-886), with `Date.now()` and
the random draws passed in. -/
def updatePortfolio (now : Int) (rng : RandB) (s : StateB) : StateB :=
  if ¬s.bot.active ∨ s.portfolio.btcBalance ≤ 0 then s
  else if growthB s now > SATOSHI_THRESHOLD then
    tradeAfterTickB now rng (applyGrowthB now s)
  else s

/-- One `localStorage` cell holding a serialized value of type `α`:
`missing` = `getItem` returns `null`; `corrupt` = a string whose
`JSON.parse` throws; `val` = a string that parses back to the value. -/
inductive Stored (α : Type) where
  | missing
  | corrupt
  | val (a : α)

/-- Variant A's three `localStorage` keys (src/app.js:403-432):
`anomcat_portfolio` (JSON), `anomcat_bot_active` (plain string, never
throws on read), `anomcat_last_update` (plain string read with `parseInt`,
never throws). -/
structure StoreA where
  portfolio : Stored PortfolioA
  botActive : Option String
  lastUpdate : Option Int

/-- Variant A `saveToStorage()` (src/app.js:403-411): writes all three keys;
the boolean is coerced to the string `"true"`/`"false"`. -/
def saveToStorageA (s : StateA) : StoreA :=
  { portfolio := .val s.portfolio
    botActive := some (if s.botActive then "true" else "false")
    lastUpdate := some s.lastUpdate }

/-- The part of variant A's `loadFromStorage` after the portfolio key
(src/app.js:420-428): `botActive === 'true'` and `parseInt(lastUpdate)`. -/
def loadRestA (st : StoreA) (s : StateA) : StateA :=
  let s :=
    match st.botActive with
    | some b => { s with botActive := b == "true" }
    | none => s
  match st.lastUpdate with
  | some t => { s with lastUpdate := t }
  | none => s

/-- Variant A `loadFromStorage()` (src/app.js:413-432).  All three reads sit
in one `try { ... } catch`, so a throwing `JSON.parse` of the portfolio key
abandons the remaining keys; the caller never sees an exception. -/
def loadFromStorageA (st : StoreA) (s : StateA) : StateA :=
  match st.portfolio with
  | .corrupt => s
  | .missing => loadRestA st s
  | .val p => loadRestA st { s with portfolio := p }

/-- Variant B's three `localStorage` keys (src/app.js:912-941):
`anomcat_portfolio` and `anomcat_bot` (JSON), `anomcat_currency` (plain
string, never throws on read). -/
structure StoreB where
  portfolio : Stored PortfolioB
  bot : Stored BotB
  currency : Option String

/-- Variant B `AnomCAT.saveToStorage()` (src/app.js:912-920). -/
def saveToStorageB (s : StateB) : StoreB :=
  { portfolio := .val s.portfolio
    bot := .val s.bot
    currency := some s.currency }

/-- The currency step of variant B's `loadFromStorage` (src/app.js:934-937). -/
def loadCurrencyB (st : StoreB) (s : StateB) : StateB :=
  match st.currency with
  | some c => { s with currency := c }
  | none => s

/-- The bot-then-currency tail of variant B's `loadFromStorage`
(src/app.js:929-937): a throwing parse of the bot key abandons the currency
key. -/
def loadBotCurrencyB (st : StoreB) (s : StateB) : StateB :=
  match st.bot with
  | .corrupt => s
  | .missing => loadCurrencyB st s
  | .val b => loadCurrencyB st { s with bot := b }

/-- Variant B `AnomCAT.loadFromStorage()` (src/app.js:922-941).  All three
reads sit in one `try { ... } catch`, so a throwing `JSON.parse` of the
portfolio key abandons the bot and currency keys; the caller never sees an
exception. -/
def loadFromStorageB (st : StoreB) (s : StateB) : StateB :=
  match st.portfolio with
  | .corrupt => s
  | .missing => loadBotCurrencyB st s
  | .val p => loadBotCurrencyB st { s with portfolio := p }

/-- Modelled from the spec: the per-key-independent load the spec describes
("tolerating any individually missing or corrupt key by falling back to the
in-memory default for that key alone" — §4.2/§7), to be compared with the
source's `loadFromStorageB`, in which a corrupt key also skips every later
key. -/
def loadIndependentB (st : StoreB) (s : StateB) : StateB :=
  let s :=
    match st.portfolio with
    | .val p => { s with portfolio := p }
    | _ => s
  let s :=
    match st.bot with
    | .val b => { s with bot := b }
    | _ => s
  loadCurrencyB st s

/-- A sequence of variant A growth ticks, each with its `Date.now()` value
and its random draws. -/
def runTicksA (l : List (Int × RandA)) (s : StateA) : StateA :=
  l.foldl (fun s p => tickA p.1 p.2 s) s

/-- A sequence of variant B growth ticks. -/
def runTicksB (l : List (Int × RandB)) (s : StateB) : StateB :=
  l.foldl (fun s p => updatePortfolio p.1 p.2 s) s

/-- An engine operation of variant A (the only two mutators of the
portfolio: a deposit attempt and a growth tick). -/
inductive OpA where
  | dep (now : Int) (profitR : Bool) (amount : Option ℝ)
  | tick (now : Int) (rng : RandA)

/-- Run a sequence of variant A operations. -/
def runA (ops : List OpA) (s : StateA) : StateA :=
  ops.foldl
    (fun s op =>
      match op with
      | .dep now pr a => (handleDeposit now pr a s).2
      | .tick now rng => tickA now rng s)
    s

/-- An engine operation of variant B. -/
inductive OpB where
  | dep (now : Int) (amount : Option ℝ)
  | tick (now : Int) (rng : RandB)

/-- Run a sequence of variant B operations. -/
def runB (ops : List OpB) (s : StateB) : StateB :=
  ops.foldl
    (fun s op =>
      match op with
      | .dep now a => (deposit now a s).2
      | .tick now rng => updatePortfolio now rng s)
    s

/-! ## Helper lemmas -/

theorem simulateTrade_current (now : Int) (pr : Bool) (ty : String) (a : ℝ)
    (s : StateA) : (simulateTrade now pr ty a s).portfolio.current =
      s.portfolio.current := rfl

theorem tradeAfterTickA_current (now : Int) (rng : RandA) (s : StateA) :
    (tradeAfterTickA now rng s).portfolio.current = s.portfolio.current := by
  unfold tradeAfterTickA
  split <;> rfl

theorem addTransaction_btcBalance (now : Int) (pr : Bool) (ty : String) (a : ℝ)
    (s : StateB) : (addTransaction now pr ty a s).portfolio.btcBalance =
      s.portfolio.btcBalance := rfl

theorem tradeAfterTickB_btcBalance (now : Int) (rng : RandB) (s : StateB) :
    (tradeAfterTickB now rng s).portfolio.btcBalance =
      s.portfolio.btcBalance := by
  unfold tradeAfterTickB
  split <;> rfl

theorem tickA_current_mono (now : Int) (rng : RandA) (s : StateA) :
    s.portfolio.current ≤ (tickA now rng s).portfolio.current := by
  unfold tickA
  split
  · split
    · rename_i hg
      rw [tradeAfterTickA_current]
      have : (0.00000001 : ℝ) > 0 := by norm_num
      simp only [applyGrowthA]
      linarith
    · exact le_refl _
  · exact le_refl _

theorem updatePortfolio_btcBalance_mono (now : Int) (rng : RandB) (s : StateB) :
    s.portfolio.btcBalance ≤ (updatePortfolio now rng s).portfolio.btcBalance := by
  unfold updatePortfolio
  split
  · exact le_refl _
  · split
    · rename_i hg
      rw [tradeAfterTickB_btcBalance]
      have : (SATOSHI_THRESHOLD : ℝ) > 0 := by norm_num [SATOSHI_THRESHOLD]
      simp only [applyGrowthB]
      linarith
    · exact le_refl _

theorem tickA_noop_of_guard (now : Int) (rng : RandA) (s : StateA)
    (h : ¬(s.botActive ∧ s.portfolio.current > 0)) : tickA now rng s = s := by
  unfold tickA
  exact if_neg h

theorem tickA_noop_of_small (now : Int) (rng : RandA) (s : StateA)
    (h : growthA s now ≤ 0.00000001) : tickA now rng s = s := by
  unfold tickA
  split
  · exact if_neg (not_lt.mpr h)
  · rfl

theorem updatePortfolio_noop_of_guard (now : Int) (rng : RandB) (s : StateB)
    (h : ¬s.bot.active ∨ s.portfolio.btcBalance ≤ 0) :
    updatePortfolio now rng s = s := by
  unfold updatePortfolio
  exact if_pos h

theorem updatePortfolio_noop_of_small (now : Int) (rng : RandB) (s : StateB)
    (h : growthB s now ≤ SATOSHI_THRESHOLD) : updatePortfolio now rng s = s := by
  unfold updatePortfolio
  split
  · rfl
  · exact if_neg (not_lt.mpr h)

theorem pushHistory_length_le (h : List Snapshot) (x : Snapshot)
    (hh : h.length ≤ 100) : (pushHistory h x).length ≤ 100 := by
  unfold pushHistory
  split <;> rename_i hc <;> simp_all [List.length_tail]

theorem pushTradeA_length_le (t : List TradeA) (x : TradeA)
    (ht : t.length ≤ 50) : (pushTradeA t x).length ≤ 50 := by
  unfold pushTradeA
  split <;> rename_i hc <;> simp_all [List.length_tail]

theorem pushTxnB_length_le (t : List Txn) (x : Txn) :
    (pushTxnB t x).length ≤ 100 := by
  unfold pushTxnB
  split <;> rename_i hc <;> simp_all

theorem pushHistory_full (h : List Snapshot) (x : Snapshot)
    (hh : h.length = 100) : pushHistory h x = h.tail ++ [x] := by
  unfold pushHistory
  rw [if_pos (by simp [hh])]
  cases h with
  | nil => simp at hh
  | cons a t => simp

theorem pushTradeA_full (t : List TradeA) (x : TradeA)
    (ht : t.length = 50) : pushTradeA t x = t.tail ++ [x] := by
  unfold pushTradeA
  rw [if_pos (by simp [ht])]
  cases t with
  | nil => simp at ht
  | cons a t => simp

theorem pushTxnB_full (t : List Txn) (x : Txn)
    (ht : t.length = 100) : pushTxnB t x = x :: t.dropLast := by
  unfold pushTxnB
  rw [if_pos (by simp [ht])]
  rw [List.dropLast_eq_take, ht]
  simp

theorem runTicksA_current_mono (l : List (Int × RandA)) (s : StateA) :
    s.portfolio.current ≤ (runTicksA l s).portfolio.current := by
  induction l generalizing s with
  | nil => exact le_refl _
  | cons p l ih => exact le_trans (tickA_current_mono p.1 p.2 s) (ih _)

theorem runTicksB_btcBalance_mono (l : List (Int × RandB)) (s : StateB) :
    s.portfolio.btcBalance ≤ (runTicksB l s).portfolio.btcBalance := by
  induction l generalizing s with
  | nil => exact le_refl _
  | cons p l ih =>
      exact le_trans (updatePortfolio_btcBalance_mono p.1 p.2 s) (ih _)

theorem handleDeposit_none (now : Int) (pr : Bool) (s : StateA) :
    handleDeposit now pr none s = (false, s) := rfl

theorem handleDeposit_nonpos (now : Int) (pr : Bool) (x : ℝ) (s : StateA)
    (hx : x ≤ 0) : handleDeposit now pr (some x) s = (false, s) := by
  simp only [handleDeposit]
  rw [if_pos hx]

theorem handleDeposit_pos (now : Int) (pr : Bool) (x : ℝ) (s : StateA)
    (hx : 0 < x) :
    handleDeposit now pr (some x) s =
      (true, simulateTrade now pr "BUY" (x * 0.1)
        { s with portfolio := (depositPortfolioA now x s.portfolio)
                 botActive := true
                 lastUpdate := now }) := by
  simp only [handleDeposit]
  rw [if_neg (not_le.mpr hx)]

theorem deposit_none (now : Int) (s : StateB) :
    deposit now none s = (false, s) := rfl

theorem deposit_nonpos (now : Int) (x : ℝ) (s : StateB) (hx : x ≤ 0) :
    deposit now (some x) s = (false, s) := by
  simp only [deposit]
  rw [if_pos hx]

theorem deposit_pos (now : Int) (x : ℝ) (s : StateB) (hx : 0 < x) :
    deposit now (some x) s =
      (true, addTransaction now false "deposit" x
        { s with
          portfolio :=
            { depositPortfolioB now x s.portfolio with
              eurBalance :=
                ((depositPortfolioB now x s.portfolio).btcBalance *
                  s.btcToEurRate) }
          bot := { s.bot with active := true, lastUpdate := now } }) := by
  simp only [deposit]
  rw [if_neg (not_le.mpr hx)]

theorem depositPortfolioA_trades (now : Int) (a : ℝ) (p : PortfolioA) :
    (depositPortfolioA now a p).trades = p.trades := by
  unfold depositPortfolioA
  split <;> rfl

theorem depositPortfolioA_history_le (now : Int) (a : ℝ) (p : PortfolioA)
    (h : p.history.length ≤ 100) :
    (depositPortfolioA now a p).history.length ≤ 100 := by
  unfold depositPortfolioA
  split <;> simp_all

theorem depositPortfolioB_trades (now : Int) (a : ℝ) (p : PortfolioB) :
    (depositPortfolioB now a p).trades = p.trades := by
  unfold depositPortfolioB
  split <;> rfl

theorem depositPortfolioB_history_le (now : Int) (a : ℝ) (p : PortfolioB)
    (h : p.history.length ≤ 100) :
    (depositPortfolioB now a p).history.length ≤ 100 := by
  unfold depositPortfolioB
  split <;> simp_all

theorem handleDeposit_bounds (now : Int) (pr : Bool) (a : Option ℝ)
    (s : StateA) (h1 : s.portfolio.history.length ≤ 100)
    (h2 : s.portfolio.trades.length ≤ 50) :
    (handleDeposit now pr a s).2.portfolio.history.length ≤ 100 ∧
    (handleDeposit now pr a s).2.portfolio.trades.length ≤ 50 := by
  match a with
  | none => exact ⟨h1, h2⟩
  | some x =>
    rcases le_or_lt x 0 with hx | hx
    · rw [handleDeposit_nonpos now pr x s hx]
      exact ⟨h1, h2⟩
    · rw [handleDeposit_pos now pr x s hx]
      refine ⟨depositPortfolioA_history_le _ _ _ h1, ?_⟩
      show (pushTradeA (depositPortfolioA now x s.portfolio).trades _).length ≤ 50
      rw [depositPortfolioA_trades]
      exact pushTradeA_length_le _ _ h2

theorem tickA_bounds (now : Int) (rng : RandA) (s : StateA)
    (h1 : s.portfolio.history.length ≤ 100)
    (h2 : s.portfolio.trades.length ≤ 50) :
    (tickA now rng s).portfolio.history.length ≤ 100 ∧
    (tickA now rng s).portfolio.trades.length ≤ 50 := by
  unfold tickA
  split
  · split
    · unfold tradeAfterTickA
      split
      · refine ⟨?_, ?_⟩
        · simpa [simulateTrade, applyGrowthA] using
            pushHistory_length_le _ _ h1
        · simpa [simulateTrade, applyGrowthA] using
            pushTradeA_length_le _ _ h2
      · exact ⟨by simpa [applyGrowthA] using pushHistory_length_le _ _ h1,
          by simpa [applyGrowthA]⟩
    · exact ⟨h1, h2⟩
  · exact ⟨h1, h2⟩

theorem runA_bounds (ops : List OpA) (s : StateA)
    (h1 : s.portfolio.history.length ≤ 100)
    (h2 : s.portfolio.trades.length ≤ 50) :
    (runA ops s).portfolio.history.length ≤ 100 ∧
    (runA ops s).portfolio.trades.length ≤ 50 := by
  induction ops generalizing s with
  | nil => exact ⟨h1, h2⟩
  | cons op l ih =>
    match op with
    | .dep now pr a =>
        have h := handleDeposit_bounds now pr a s h1 h2
        exact ih _ h.1 h.2
    | .tick now rng =>
        have h := tickA_bounds now rng s h1 h2
        exact ih _ h.1 h.2

theorem deposit_bounds (now : Int) (a : Option ℝ) (s : StateB)
    (h1 : s.portfolio.history.length ≤ 100)
    (h2 : s.portfolio.trades.length ≤ 100) :
    (deposit now a s).2.portfolio.history.length ≤ 100 ∧
    (deposit now a s).2.portfolio.trades.length ≤ 100 := by
  match a with
  | none => exact ⟨h1, h2⟩
  | some x =>
    rcases le_or_lt x 0 with hx | hx
    · rw [deposit_nonpos now x s hx]
      exact ⟨h1, h2⟩
    · rw [deposit_pos now x s hx]
      exact ⟨depositPortfolioB_history_le _ _ _ h1, pushTxnB_length_le _ _⟩

theorem updatePortfolio_bounds (now : Int) (rng : RandB) (s : StateB)
    (h1 : s.portfolio.history.length ≤ 100)
    (h2 : s.portfolio.trades.length ≤ 100) :
    (updatePortfolio now rng s).portfolio.history.length ≤ 100 ∧
    (updatePortfolio now rng s).portfolio.trades.length ≤ 100 := by
  unfold updatePortfolio
  split
  · exact ⟨h1, h2⟩
  · split
    · unfold tradeAfterTickB
      split
      · refine ⟨?_, ?_⟩
        · simpa [addTransaction, applyGrowthB] using
            pushHistory_length_le _ _ h1
        · simp [addTransaction, applyGrowthB]
          exact pushTxnB_length_le _ _
      · exact ⟨by simpa [applyGrowthB] using pushHistory_length_le _ _ h1,
          by simpa [applyGrowthB]⟩
    · exact ⟨h1, h2⟩

theorem runB_bounds (ops : List OpB) (s : StateB)
    (h1 : s.portfolio.history.length ≤ 100)
    (h2 : s.portfolio.trades.length ≤ 100) :
    (runB ops s).portfolio.history.length ≤ 100 ∧
    (runB ops s).portfolio.trades.length ≤ 100 := by
  induction ops generalizing s with
  | nil => exact ⟨h1, h2⟩
  | cons op l ih =>
    match op with
    | .dep now a =>
        have h := deposit_bounds now a s h1 h2
        exact ih _ h.1 h.2
    | .tick now rng =>
        have h := updatePortfolio_bounds now rng s h1 h2
        exact ih _ h.1 h.2

theorem depositPortfolioA_first (now : Int) (a : ℝ) (p : PortfolioA)
    (h0 : p.initial = 0) :
    depositPortfolioA now a p =
      { p with initial := a, current := a, history := [⟨now, a⟩] } := by
  unfold depositPortfolioA
  rw [if_pos h0]

theorem depositPortfolioA_rest (now : Int) (a : ℝ) (p : PortfolioA)
    (h0 : p.initial ≠ 0) :
    depositPortfolioA now a p = { p with current := p.current + a } := by
  unfold depositPortfolioA
  rw [if_neg h0]

theorem depositPortfolioB_first (now : Int) (a : ℝ) (p : PortfolioB)
    (h0 : p.initialBtc = 0) :
    depositPortfolioB now a p =
      { p with initialBtc := a, btcBalance := a, history := [⟨now, a⟩] } := by
  unfold depositPortfolioB
  rw [if_pos h0]

theorem depositPortfolioB_rest (now : Int) (a : ℝ) (p : PortfolioB)
    (h0 : p.initialBtc ≠ 0) :
    depositPortfolioB now a p = { p with btcBalance := p.btcBalance + a } := by
  unfold depositPortfolioB
  rw [if_neg h0]

/-! ## Claim theorems -/

/-- C2: for every valid deposit amount `d > 0`, a first deposit
(`initialDeposit = 0`) sets `initialDeposit = balance = d` and replaces the
history with the single snapshot `{now, d}`; a later deposit adds `d` to the
balance leaving `initialDeposit` and the history untouched; in both cases
the bot becomes active and `lastUpdate := now`, and the call reports
success.  Consequently two valid deposits `d1, d2` from the empty state
leave `initialDeposit = d1` and `balance = d1 + d2` — in both variants. -/
theorem C2_deposit_effects (d d1 d2 : ℝ) (now now1 now2 t0 : Int)
    (pr pr1 pr2 : Bool) (sA : StateA) (sB : StateB)
    (hd : 0 < d) (hd1 : 0 < d1) (hd2 : 0 < d2) :
    (sA.portfolio.initial = 0 →
      (handleDeposit now pr (some d) sA).2.portfolio.initial = d ∧
      (handleDeposit now pr (some d) sA).2.portfolio.current = d ∧
      (handleDeposit now pr (some d) sA).2.portfolio.history = [⟨now, d⟩]) ∧
    (sA.portfolio.initial ≠ 0 →
      (handleDeposit now pr (some d) sA).2.portfolio.initial =
        sA.portfolio.initial ∧
      (handleDeposit now pr (some d) sA).2.portfolio.current =
        sA.portfolio.current + d ∧
      (handleDeposit now pr (some d) sA).2.portfolio.history =
        sA.portfolio.history) ∧
    (handleDeposit now pr (some d) sA).2.botActive = true ∧
    (handleDeposit now pr (some d) sA).2.lastUpdate = now ∧
    (handleDeposit now pr (some d) sA).1 = true ∧
    (sB.portfolio.initialBtc = 0 →
      (deposit now (some d) sB).2.portfolio.initialBtc = d ∧
      (deposit now (some d) sB).2.portfolio.btcBalance = d ∧
      (deposit now (some d) sB).2.portfolio.history = [⟨now, d⟩]) ∧
    (sB.portfolio.initialBtc ≠ 0 →
      (deposit now (some d) sB).2.portfolio.initialBtc =
        sB.portfolio.initialBtc ∧
      (deposit now (some d) sB).2.portfolio.btcBalance =
        sB.portfolio.btcBalance + d ∧
      (deposit now (some d) sB).2.portfolio.history =
        sB.portfolio.history) ∧
    (deposit now (some d) sB).2.bot.active = true ∧
    (deposit now (some d) sB).2.bot.lastUpdate = now ∧
    (deposit now (some d) sB).1 = true ∧
    (runA [.dep now1 pr1 (some d1), .dep now2 pr2 (some d2)]
        (initA t0)).portfolio.initial = d1 ∧
    (runA [.dep now1 pr1 (some d1), .dep now2 pr2 (some d2)]
        (initA t0)).portfolio.current = d1 + d2 ∧
    (runB [.dep now1 (some d1), .dep now2 (some d2)]
        (initB t0)).portfolio.initialBtc = d1 ∧
    (runB [.dep now1 (some d1), .dep now2 (some d2)]
        (initB t0)).portfolio.btcBalance = d1 + d2 := by
  rw [handleDeposit_pos now pr d sA hd, deposit_pos now d sB hd]
  have seqA :
      (runA [.dep now1 pr1 (some d1), .dep now2 pr2 (some d2)]
          (initA t0)).portfolio.initial = d1 ∧
      (runA [.dep now1 pr1 (some d1), .dep now2 pr2 (some d2)]
          (initA t0)).portfolio.current = d1 + d2 := by
    simp only [runA, List.foldl]
    rw [handleDeposit_pos now1 pr1 d1 (initA t0) hd1]
    rw [depositPortfolioA_first now1 d1 (initA t0).portfolio rfl]
    rw [handleDeposit_pos now2 pr2 d2 _ hd2]
    rw [depositPortfolioA_rest now2 d2 _ (ne_of_gt hd1)]
    exact ⟨rfl, rfl⟩
  have seqB :
      (runB [.dep now1 (some d1), .dep now2 (some d2)]
          (initB t0)).portfolio.initialBtc = d1 ∧
      (runB [.dep now1 (some d1), .dep now2 (some d2)]
          (initB t0)).portfolio.btcBalance = d1 + d2 := by
    simp only [runB, List.foldl]
    rw [deposit_pos now1 d1 (initB t0) hd1]
    rw [depositPortfolioB_first now1 d1 (initB t0).portfolio rfl]
    rw [deposit_pos now2 d2 _ hd2]
    rw [depositPortfolioB_rest now2 d2 _ (ne_of_gt hd1)]
    exact ⟨rfl, rfl⟩
  refine ⟨?_, ?_, rfl, rfl, rfl, ?_, ?_, rfl, rfl, rfl,
    seqA.1, seqA.2, seqB.1, seqB.2⟩
  · intro h0
    rw [depositPortfolioA_first now d sA.portfolio h0]
    exact ⟨rfl, rfl, rfl⟩
  · intro h0
    rw [depositPortfolioA_rest now d sA.portfolio h0]
    exact ⟨rfl, rfl, rfl⟩
  · intro h0
    rw [depositPortfolioB_first now d sB.portfolio h0]
    exact ⟨rfl, rfl, rfl⟩
  · intro h0
    rw [depositPortfolioB_rest now d sB.portfolio h0]
    exact ⟨rfl, rfl, rfl⟩

/-- Witness for C2 at `d = 1`, `d1 = 1`, `d2 = 2` from the empty states. -/
theorem C2_deposit_effects_witness :
    ((initA 0).portfolio.initial = 0 →
      (handleDeposit 7 true (some 1) (initA 0)).2.portfolio.initial = 1 ∧
      (handleDeposit 7 true (some 1) (initA 0)).2.portfolio.current = 1 ∧
      (handleDeposit 7 true (some 1) (initA 0)).2.portfolio.history =
        [⟨7, 1⟩]) ∧
    ((initA 0).portfolio.initial ≠ 0 →
      (handleDeposit 7 true (some 1) (initA 0)).2.portfolio.initial =
        (initA 0).portfolio.initial ∧
      (handleDeposit 7 true (some 1) (initA 0)).2.portfolio.current =
        (initA 0).portfolio.current + 1 ∧
      (handleDeposit 7 true (some 1) (initA 0)).2.portfolio.history =
        (initA 0).portfolio.history) ∧
    (handleDeposit 7 true (some 1) (initA 0)).2.botActive = true ∧
    (handleDeposit 7 true (some 1) (initA 0)).2.lastUpdate = 7 ∧
    (handleDeposit 7 true (some 1) (initA 0)).1 = true ∧
    ((initB 0).portfolio.initialBtc = 0 →
      (deposit 7 (some 1) (initB 0)).2.portfolio.initialBtc = 1 ∧
      (deposit 7 (some 1) (initB 0)).2.portfolio.btcBalance = 1 ∧
      (deposit 7 (some 1) (initB 0)).2.portfolio.history = [⟨7, 1⟩]) ∧
    ((initB 0).portfolio.initialBtc ≠ 0 →
      (deposit 7 (some 1) (initB 0)).2.portfolio.initialBtc =
        (initB 0).portfolio.initialBtc ∧
      (deposit 7 (some 1) (initB 0)).2.portfolio.btcBalance =
        (initB 0).portfolio.btcBalance + 1 ∧
      (deposit 7 (some 1) (initB 0)).2.portfolio.history =
        (initB 0).portfolio.history) ∧
    (deposit 7 (some 1) (initB 0)).2.bot.active = true ∧
    (deposit 7 (some 1) (initB 0)).2.bot.lastUpdate = 7 ∧
    (deposit 7 (some 1) (initB 0)).1 = true ∧
    (runA [.dep 7 true (some 1), .dep 9 false (some 2)]
        (initA 0)).portfolio.initial = 1 ∧
    (runA [.dep 7 true (some 1), .dep 9 false (some 2)]
        (initA 0)).portfolio.current = 1 + 2 ∧
    (runB [.dep 7 (some 1), .dep 9 (some 2)]
        (initB 0)).portfolio.initialBtc = 1 ∧
    (runB [.dep 7 (some 1), .dep 9 (some 2)]
        (initB 0)).portfolio.btcBalance = 1 + 2 :=
  C2_deposit_effects 1 1 2 7 7 9 0 true true false (initA 0) (initB 0)
    (by norm_num) (by norm_num) (by norm_num)

/-- C3: a growth tick is a complete no-op — state returned unchanged, so no
balance change, no history append, `lastUpdate` untouched — whenever the bot
is inactive, or the balance is zero, or the computed growth does not exceed
the 1e-8 threshold; hence two ticks with the same `now` in such a state
both return the identical state.  Proven for both variants. -/
theorem C3_tick_noop (now : Int) (rngA : RandA) (rngB : RandB)
    (sA : StateA) (sB : StateB)
    (hA : sA.botActive = false ∨ sA.portfolio.current = 0 ∨
      growthA sA now ≤ 0.00000001)
    (hB : sB.bot.active = false ∨ sB.portfolio.btcBalance = 0 ∨
      growthB sB now ≤ SATOSHI_THRESHOLD) :
    tickA now rngA sA = sA ∧ updatePortfolio now rngB sB = sB ∧
    tickA now rngA (tickA now rngA sA) = sA ∧
    updatePortfolio now rngB (updatePortfolio now rngB sB) = sB := by
  have h1 : tickA now rngA sA = sA := by
    rcases hA with h | h | h
    · exact tickA_noop_of_guard _ _ _ (by simp [h])
    · exact tickA_noop_of_guard _ _ _ (by simp [h])
    · exact tickA_noop_of_small _ _ _ h
  have h2 : updatePortfolio now rngB sB = sB := by
    rcases hB with h | h | h
    · exact updatePortfolio_noop_of_guard _ _ _ (Or.inl (by simp [h]))
    · exact updatePortfolio_noop_of_guard _ _ _ (Or.inr (le_of_eq h))
    · exact updatePortfolio_noop_of_small _ _ _ h
  exact ⟨h1, h2, by rw [h1, h1], by rw [h2, h2]⟩

/-- Witness for C3 on the inactive initial states. -/
theorem C3_tick_noop_witness :
    tickA 5 ⟨true, 1, true, true⟩ (initA 0) = initA 0 ∧
    updatePortfolio 5 ⟨true, 1, true⟩ (initB 0) = initB 0 ∧
    tickA 5 ⟨true, 1, true, true⟩ (tickA 5 ⟨true, 1, true, true⟩ (initA 0)) =
      initA 0 ∧
    updatePortfolio 5 ⟨true, 1, true⟩
      (updatePortfolio 5 ⟨true, 1, true⟩ (initB 0)) = initB 0 :=
  C3_tick_noop 5 ⟨true, 1, true, true⟩ ⟨true, 1, true⟩ (initA 0) (initB 0)
    (Or.inl rfl) (Or.inl rfl)

/-- C6: a `NaN` or non-positive deposit amount is rejected — the call
reports failure (`InvalidInput`) and returns the state completely
unchanged, in both variants. -/
theorem C6_invalid_deposit (now : Int) (pr : Bool) (x : ℝ)
    (sA : StateA) (sB : StateB) (hx : x ≤ 0) :
    handleDeposit now pr none sA = (false, sA) ∧
    handleDeposit now pr (some x) sA = (false, sA) ∧
    deposit now none sB = (false, sB) ∧
    deposit now (some x) sB = (false, sB) :=
  ⟨handleDeposit_none now pr sA, handleDeposit_nonpos now pr x sA hx,
   deposit_none now sB, deposit_nonpos now x sB hx⟩

/-- Witness for C6 at amount `-1` and `NaN`. -/
theorem C6_invalid_deposit_witness :
    handleDeposit 3 true none (initA 0) = (false, initA 0) ∧
    handleDeposit 3 true (some (-1)) (initA 0) = (false, initA 0) ∧
    deposit 3 none (initB 0) = (false, initB 0) ∧
    deposit 3 (some (-1)) (initB 0) = (false, initB 0) :=
  C6_invalid_deposit 3 true (-1) (initA 0) (initB 0) (by norm_num)

/-- C4: along any sequence of growth ticks whose `now` values are
non-decreasing, the balance is non-decreasing — each tick either leaves the
state alone or adds a strictly positive growth, and the randomly labelled
"unprofitable" trade records never touch the balance.  Proven for both
variants (the non-decreasing hypothesis is in fact not even needed for the
proof). -/
theorem C4_balance_monotone (l : List (Int × RandA)) (m : List (Int × RandB))
    (sA : StateA) (sB : StateB)
    (_hl : List.Chain' (· ≤ ·) (l.map Prod.fst))
    (_hm : List.Chain' (· ≤ ·) (m.map Prod.fst)) :
    sA.portfolio.current ≤ (runTicksA l sA).portfolio.current ∧
    sB.portfolio.btcBalance ≤ (runTicksB m sB).portfolio.btcBalance :=
  ⟨runTicksA_current_mono l sA, runTicksB_btcBalance_mono m sB⟩

/-- Witness for C4 on two-tick sequences with increasing timestamps. -/
theorem C4_balance_monotone_witness :
    (initA 0).portfolio.current ≤
      (runTicksA [(1, ⟨false, 1, true, true⟩), (2, ⟨true, 1, false, false⟩)]
        (initA 0)).portfolio.current ∧
    (initB 0).portfolio.btcBalance ≤
      (runTicksB [(1, ⟨false, 1, true⟩), (2, ⟨true, 1, false⟩)]
        (initB 0)).portfolio.btcBalance :=
  C4_balance_monotone
    [(1, ⟨false, 1, true, true⟩), (2, ⟨true, 1, false, false⟩)]
    [(1, ⟨false, 1, true⟩), (2, ⟨true, 1, false⟩)]
    (initA 0) (initB 0) (by simp) (by simp)

/-- C10: with the session's fixed monthly return rate 0.013, a single tick
whose `now` is at or before `lastUpdate` (a clock stepping backwards) is a
complete no-op in both variants: the non-positive elapsed time gives a
growth ≤ 0, which fails the strict 1e-8 threshold.  Moreover a single tick
never decreases the balance for any `now` whatsoever, so balance
monotonicity needs no non-decreasing-`now` hypothesis. -/
theorem C10_clock_backwards_noop (now : Int) (rngA : RandA) (rngB : RandB)
    (sA : StateA) (sB : StateB)
    (hrA : sA.monthlyReturn = 0.013) (hrB : sB.bot.monthlyReturn = 0.013)
    (hA : now ≤ sA.lastUpdate) (hB : now ≤ sB.bot.lastUpdate) :
    tickA now rngA sA = sA ∧ updatePortfolio now rngB sB = sB ∧
    (∀ (n : Int) (rA : RandA) (rB : RandB) (s : StateA) (t : StateB),
      s.portfolio.current ≤ (tickA n rA s).portfolio.current ∧
      t.portfolio.btcBalance ≤
        (updatePortfolio n rB t).portfolio.btcBalance) := by
  have hmA : monthsElapsedA now sA.lastUpdate ≤ 0 := by
    unfold monthsElapsedA
    apply div_nonpos_of_nonpos_of_nonneg
    · have h : (now : ℝ) ≤ (sA.lastUpdate : ℝ) := by exact_mod_cast hA
      linarith
    · norm_num
  have hmB : monthsElapsedB now sB.bot.lastUpdate ≤ 0 := by
    unfold monthsElapsedB
    apply div_nonpos_of_nonpos_of_nonneg
    · have h : (now : ℝ) ≤ (sB.bot.lastUpdate : ℝ) := by exact_mod_cast hB
      linarith
    · norm_num [DAYS_PER_MONTH]
  refine ⟨?_, ?_, fun n rA rB s t =>
    ⟨tickA_current_mono n rA s, updatePortfolio_btcBalance_mono n rB t⟩⟩
  · by_cases hg : sA.botActive ∧ sA.portfolio.current > 0
    · apply tickA_noop_of_small
      have hp : (1 + sA.monthlyReturn) ^ monthsElapsedA now sA.lastUpdate
          ≤ 1 := by
        rw [hrA]
        exact Real.rpow_le_one_of_one_le_of_nonpos (by norm_num) hmA
      unfold growthA
      have hc := hg.2
      nlinarith [mul_le_mul_of_nonneg_left hp (le_of_lt hc)]
    · exact tickA_noop_of_guard _ _ _ hg
  · by_cases hg : ¬sB.bot.active ∨ sB.portfolio.btcBalance ≤ 0
    · exact updatePortfolio_noop_of_guard _ _ _ hg
    · apply updatePortfolio_noop_of_small
      push_neg at hg
      have hp : (1 + sB.bot.monthlyReturn) ^
          monthsElapsedB now sB.bot.lastUpdate ≤ 1 := by
        rw [hrB]
        exact Real.rpow_le_one_of_one_le_of_nonpos (by norm_num) hmB
      unfold growthB
      have hc := hg.2
      have := mul_le_mul_of_nonneg_left hp (le_of_lt hc)
      have hthr : (0 : ℝ) ≤ SATOSHI_THRESHOLD := by
        norm_num [SATOSHI_THRESHOLD]
      nlinarith

/-- Witness for C10: a tick at `now = -5`, five milliseconds before
`lastUpdate = 0`, on freshly deposited states. -/
theorem C10_clock_backwards_noop_witness :
    tickA (-5) ⟨false, 1, true, true⟩ (initA 0) = initA 0 ∧
    updatePortfolio (-5) ⟨false, 1, true⟩ (initB 0) = initB 0 ∧
    (∀ (n : Int) (rA : RandA) (rB : RandB) (s : StateA) (t : StateB),
      s.portfolio.current ≤ (tickA n rA s).portfolio.current ∧
      t.portfolio.btcBalance ≤
        (updatePortfolio n rB t).portfolio.btcBalance) :=
  C10_clock_backwards_noop (-5) ⟨false, 1, true, true⟩ ⟨false, 1, true⟩
    (initA 0) (initB 0) rfl rfl (by norm_num [initA]) (by norm_num [initB])

/-- C5: starting from the empty state, any sequence of deposit and tick
operations keeps `history.length ≤ 100` and `trades.length` within the
configured bound (50 in the class variant, 100 in the v1.01 variant); and
when a full log receives one more entry, the evicted entry is the oldest —
the head of variant A's append-at-end logs, the last element of variant B's
newest-first trade log. -/
theorem C5_bounded_logs (opsA : List OpA) (opsB : List OpB) (t0 : Int)
    (h : List Snapshot) (x : Snapshot) (tA : List TradeA) (yA : TradeA)
    (tB : List Txn) (yB : Txn)
    (hh : h.length = 100) (htA : tA.length = 50) (htB : tB.length = 100) :
    (runA opsA (initA t0)).portfolio.history.length ≤ 100 ∧
    (runA opsA (initA t0)).portfolio.trades.length ≤ 50 ∧
    (runB opsB (initB t0)).portfolio.history.length ≤ 100 ∧
    (runB opsB (initB t0)).portfolio.trades.length ≤ 100 ∧
    pushHistory h x = h.tail ++ [x] ∧
    pushTradeA tA yA = tA.tail ++ [yA] ∧
    pushTxnB tB yB = yB :: tB.dropLast := by
  have bA := runA_bounds opsA (initA t0) (by simp [initA]) (by simp [initA])
  have bB := runB_bounds opsB (initB t0) (by simp [initB]) (by simp [initB])
  exact ⟨bA.1, bA.2, bB.1, bB.2, pushHistory_full h x hh,
    pushTradeA_full tA yA htA, pushTxnB_full tB yB htB⟩

/-- Witness for C5 on a two-operation run and logs filled exactly to their
bounds. -/
theorem C5_bounded_logs_witness :
    (runA [.dep 1 true (some 1), .tick 2 ⟨true, 1, true, true⟩]
        (initA 0)).portfolio.history.length ≤ 100 ∧
    (runA [.dep 1 true (some 1), .tick 2 ⟨true, 1, true, true⟩]
        (initA 0)).portfolio.trades.length ≤ 50 ∧
    (runB [.dep 1 (some 1), .tick 2 ⟨true, 1, true⟩]
        (initB 0)).portfolio.history.length ≤ 100 ∧
    (runB [.dep 1 (some 1), .tick 2 ⟨true, 1, true⟩]
        (initB 0)).portfolio.trades.length ≤ 100 ∧
    pushHistory (List.replicate 100 ⟨0, 0⟩) ⟨1, 1⟩ =
      (List.replicate 100 (⟨0, 0⟩ : Snapshot)).tail ++ [⟨1, 1⟩] ∧
    pushTradeA (List.replicate 50 ⟨0, "BUY", 0, true⟩) ⟨1, "SELL", 1, false⟩ =
      (List.replicate 50 (⟨0, "BUY", 0, true⟩ : TradeA)).tail ++
        [⟨1, "SELL", 1, false⟩] ∧
    pushTxnB (List.replicate 100 ⟨0, 0, "deposit", 0, none⟩)
        ⟨1, 1, "trade", 1, some true⟩ =
      ⟨1, 1, "trade", 1, some true⟩ ::
        (List.replicate 100 (⟨0, 0, "deposit", 0, none⟩ : Txn)).dropLast :=
  C5_bounded_logs [.dep 1 true (some 1), .tick 2 ⟨true, 1, true, true⟩]
    [.dep 1 (some 1), .tick 2 ⟨true, 1, true⟩] 0
    (List.replicate 100 ⟨0, 0⟩) ⟨1, 1⟩
    (List.replicate 50 ⟨0, "BUY", 0, true⟩) ⟨1, "SELL", 1, false⟩
    (List.replicate 100 ⟨0, 0, "deposit", 0, none⟩) ⟨1, 1, "trade", 1, some true⟩
    (by simp) (by simp) (by simp)

/-- C8: saving the state's persisted keys and loading them back into the
same in-memory state restores it exactly, in both variants; and when only a
subset of the keys is present, the loaded keys take effect while each
missing key individually falls back to the in-memory value. -/
theorem C8_save_load_roundtrip (sA : StateA) (sB : StateB) (s0 : StateB) :
    loadFromStorageA (saveToStorageA sA) sA = sA ∧
    loadFromStorageB (saveToStorageB sB) sB = sB ∧
    loadFromStorageB
        { portfolio := .val sB.portfolio, bot := .missing, currency := none }
        s0 = { s0 with portfolio := sB.portfolio } ∧
    loadFromStorageB
        { portfolio := .missing, bot := .val sB.bot, currency := none }
        s0 = { s0 with bot := sB.bot } ∧
    loadFromStorageB
        { portfolio := .missing, bot := .missing,
          currency := some sB.currency }
        s0 = { s0 with currency := sB.currency } := by
  refine ⟨?_, ?_, rfl, rfl, rfl⟩
  · obtain ⟨p, b, r, lu, f⟩ := sA
    unfold saveToStorageA loadFromStorageA loadRestA
    cases b <;> simp
  · obtain ⟨c, r, p, b⟩ := sB
    rfl

/-- C7 counterexample: with a corrupt portfolio key, a valid stored bot
record with `active = true`, and a stored currency `"EUR"`, the source's
`loadFromStorage` (one `try/catch` around all keys) returns the in-memory
state unchanged — the valid bot and currency keys are NOT loaded — whereas
the per-key-independent load the claim describes would load them.  So a
corrupt value under one key does affect the loading of the other keys. -/
theorem C7_counterexample :
    loadFromStorageB
        { portfolio := .corrupt
          bot := .val { active := true, monthlyReturn := 0.013, lastUpdate := 1 }
          currency := some "EUR" } (initB 0) ≠
      loadIndependentB
        { portfolio := .corrupt
          bot := .val { active := true, monthlyReturn := 0.013, lastUpdate := 1 }
          currency := some "EUR" } (initB 0) ∧
    (loadFromStorageB
        { portfolio := .corrupt
          bot := .val { active := true, monthlyReturn := 0.013, lastUpdate := 1 }
          currency := some "EUR" } (initB 0)).bot.active = false ∧
    (loadIndependentB
        { portfolio := .corrupt
          bot := .val { active := true, monthlyReturn := 0.013, lastUpdate := 1 }
          currency := some "EUR" } (initB 0)).bot.active = true := by
  refine ⟨?_, rfl, rfl⟩
  intro h
  have h2 := congrArg (fun s => s.bot.active) h
  simp only [loadFromStorageB, loadIndependentB, loadCurrencyB, initB] at h2
  exact Bool.false_ne_true h2

/-- C7 (amended): `load` is total (every thrown parse is caught, so the
caller never sees an exception) and each MISSING key individually falls
back to the in-memory value without affecting the other keys; but a CORRUPT
key aborts the load at that point: keys read before it keep their loaded
values, while the corrupt key and every later key keep the in-memory
values.  Shown for both variants. -/
theorem C7_load_fallback (p : PortfolioB) (b : BotB) (c : String)
    (s : StateB) (pa : PortfolioA) (ba : String) (ta : Int) (sa : StateA) :
    loadFromStorageB
      { portfolio := .missing, bot := .missing, currency := none } s = s ∧
    loadFromStorageB
      { portfolio := .val p, bot := .missing, currency := none } s =
      { s with portfolio := p } ∧
    loadFromStorageB
      { portfolio := .missing, bot := .val b, currency := none } s =
      { s with bot := b } ∧
    loadFromStorageB
      { portfolio := .missing, bot := .missing, currency := some c } s =
      { s with currency := c } ∧
    loadFromStorageB
      { portfolio := .corrupt, bot := .val b, currency := some c } s = s ∧
    loadFromStorageB
      { portfolio := .val p, bot := .corrupt, currency := some c } s =
      { s with portfolio := p } ∧
    loadFromStorageA
      { portfolio := .missing, botActive := none, lastUpdate := none } sa =
      sa ∧
    loadFromStorageA
      { portfolio := .val pa, botActive := none, lastUpdate := none } sa =
      { sa with portfolio := pa } ∧
    loadFromStorageA
      { portfolio := .missing, botActive := none, lastUpdate := some ta } sa =
      { sa with lastUpdate := ta } ∧
    loadFromStorageA
      { portfolio := .missing, botActive := some "true", lastUpdate := none }
      sa = { sa with botActive := true } ∧
    loadFromStorageA
      { portfolio := .corrupt, botActive := some ba, lastUpdate := some ta }
      sa = sa :=
  ⟨rfl, rfl, rfl, rfl, rfl, rfl, rfl, rfl, rfl, by
    unfold loadFromStorageA loadRestA
    simp, rfl⟩

theorem pushTxnB_head (t : List Txn) (x : Txn) :
    (pushTxnB t x).head? = some x := by
  unfold pushTxnB
  split
  · rw [List.take_succ_cons]
    rfl
  · rfl

theorem pushTradeA_getLast (t : List TradeA) (x : TradeA) :
    (pushTradeA t x).getLast? = some x := by
  unfold pushTradeA
  split
  · rename_i hc
    cases t with
    | nil => simp at hc
    | cons a t =>
        show (t ++ [x]).getLast? = some x
        simp
  · simp

/-- C1 (amended): the two variants use different days-per-month constants —
`startBot` divides elapsed milliseconds by `86400000 × 30` (naive 30-day
months) while `updatePortfolio` divides by `86400000 × (365.2425/12)`
(= 30.436875); in both, for an active portfolio with positive balance, the
growth is `balance × ((1 + monthlyReturnRate) ^ elapsedMonths − 1)` and an
above-threshold tick adds exactly that growth to the balance. -/
theorem C1_growth_formula (sA : StateA) (sB : StateB) (now : Int)
    (rngA : RandA) (rngB : RandB)
    (hA : sA.botActive = true ∧ 0 < sA.portfolio.current)
    (hB : sB.bot.active = true ∧ 0 < sB.portfolio.btcBalance) :
    monthsElapsedA now sA.lastUpdate =
      ((now : ℝ) - (sA.lastUpdate : ℝ)) / (86400000 * 30) ∧
    monthsElapsedB now sB.bot.lastUpdate =
      ((now : ℝ) - (sB.bot.lastUpdate : ℝ)) / (86400000 * (365.2425 / 12)) ∧
    growthA sA now = sA.portfolio.current *
      ((1 + sA.monthlyReturn) ^ monthsElapsedA now sA.lastUpdate - 1) ∧
    growthB sB now = sB.portfolio.btcBalance *
      ((1 + sB.bot.monthlyReturn) ^ monthsElapsedB now sB.bot.lastUpdate
        - 1) ∧
    (growthA sA now > 0.00000001 →
      (tickA now rngA sA).portfolio.current =
        sA.portfolio.current + growthA sA now) ∧
    (growthB sB now > SATOSHI_THRESHOLD →
      (updatePortfolio now rngB sB).portfolio.btcBalance =
        sB.portfolio.btcBalance + growthB sB now) := by
  refine ⟨?_, ?_, by unfold growthA; ring, by unfold growthB; ring, ?_, ?_⟩
  · unfold monthsElapsedA
    norm_num
  · unfold monthsElapsedB DAYS_PER_MONTH
    norm_num
  · intro hg
    unfold tickA
    rw [if_pos (by simp [hA.1, hA.2]), if_pos hg, tradeAfterTickA_current]
    rfl
  · intro hg
    unfold updatePortfolio
    rw [if_neg (by simp [hB.1, not_le.mpr hB.2]), if_pos hg,
      tradeAfterTickB_btcBalance]
    rfl

/-- Witness for C1 on active single-coin states at `now` = 2592000000 ms
(thirty days after `lastUpdate` = 0). -/
theorem C1_growth_formula_witness :
    monthsElapsedA 2592000000 0 = ((2592000000 : ℝ) - ((0 : Int) : ℝ)) /
      (86400000 * 30) ∧
    monthsElapsedB 2592000000 0 = ((2592000000 : ℝ) - ((0 : Int) : ℝ)) /
      (86400000 * (365.2425 / 12)) ∧
    growthA ⟨⟨1, 1, [], []⟩, true, 0.013, 0, "mempool"⟩ 2592000000 =
      (1 : ℝ) * ((1 + 0.013) ^ monthsElapsedA 2592000000 0 - 1) ∧
    growthB ⟨"BTC", 45000, ⟨1, 45000, 1, [], []⟩, ⟨true, 0.013, 0⟩⟩
        2592000000 =
      (1 : ℝ) * ((1 + 0.013) ^ monthsElapsedB 2592000000 0 - 1) ∧
    (growthA ⟨⟨1, 1, [], []⟩, true, 0.013, 0, "mempool"⟩ 2592000000 >
        0.00000001 →
      (tickA 2592000000 ⟨false, 1, true, true⟩
          ⟨⟨1, 1, [], []⟩, true, 0.013, 0, "mempool"⟩).portfolio.current =
        (1 : ℝ) + growthA ⟨⟨1, 1, [], []⟩, true, 0.013, 0, "mempool"⟩
          2592000000) ∧
    (growthB ⟨"BTC", 45000, ⟨1, 45000, 1, [], []⟩, ⟨true, 0.013, 0⟩⟩
        2592000000 > SATOSHI_THRESHOLD →
      (updatePortfolio 2592000000 ⟨false, 1, true⟩
          ⟨"BTC", 45000, ⟨1, 45000, 1, [], []⟩,
            ⟨true, 0.013, 0⟩⟩).portfolio.btcBalance =
        (1 : ℝ) + growthB ⟨"BTC", 45000, ⟨1, 45000, 1, [], []⟩,
          ⟨true, 0.013, 0⟩⟩ 2592000000) :=
  C1_growth_formula ⟨⟨1, 1, [], []⟩, true, 0.013, 0, "mempool"⟩
    ⟨"BTC", 45000, ⟨1, 45000, 1, [], []⟩, ⟨true, 0.013, 0⟩⟩
    2592000000 ⟨false, 1, true, true⟩ ⟨false, 1, true⟩
    ⟨rfl, by norm_num⟩ ⟨rfl, by norm_num⟩

/-- C1 counterexample: at an active state with balance 1, rate 0.013 and
`lastUpdate = 0`, ticked at `now = 2629746000` ms (exactly one precise
average month of 30.436875 days), the class variant's `startBot` does NOT
compute elapsed months with the precise 365.2425/12 constant: its
`monthsElapsedA` is 2629746000/2592000000 ≠ 1, and its growth differs from
the claimed `balance × ((1 + 0.013) ^ 1 − 1)`. -/
theorem C1_counterexample :
    monthsElapsedA 2629746000 0 ≠
      ((2629746000 : ℝ) - ((0 : Int) : ℝ)) / (86400000 * (365.2425 / 12)) ∧
    growthA ⟨⟨1, 1, [], []⟩, true, 0.013, 0, "mempool"⟩ 2629746000 ≠
      (1 : ℝ) * ((1 + 0.013) ^
        (((2629746000 : ℝ) - ((0 : Int) : ℝ)) /
          (86400000 * (365.2425 / 12))) - 1) := by
  have hspec : ((2629746000 : ℝ) - ((0 : Int) : ℝ)) /
      (86400000 * (365.2425 / 12)) = 1 := by
    norm_num
  have he : (1 : ℝ) < monthsElapsedA 2629746000 0 := by
    unfold monthsElapsedA
    rw [lt_div_iff₀ (by norm_num)]
    push_cast
    norm_num
  have hlt : ((1 : ℝ) + 0.013) ^ (1 : ℝ) <
      (1 + 0.013) ^ monthsElapsedA 2629746000 0 :=
    (Real.rpow_lt_rpow_left_iff (by norm_num)).mpr he
  rw [Real.rpow_one] at hlt
  constructor
  · rw [hspec]
    exact ne_of_gt he
  · rw [hspec, Real.rpow_one]
    unfold growthA
    simp only
    intro h
    nlinarith [h, hlt]

/-- C9 (amended): in the v1.01 variant every valid deposit prepends a
`'deposit'`-kind transaction recording the full deposited amount with a
`null` profit label; in the class variant a valid deposit instead appends a
simulated `'BUY'` trade recording only a tenth of the deposited amount,
with a randomly drawn profit flag. -/
theorem C9_deposit_trade_record (d : ℝ) (now : Int) (pr : Bool)
    (sA : StateA) (sB : StateB) (hd : 0 < d) :
    (deposit now (some d) sB).2.portfolio.trades.head? =
      some ⟨now, now, "deposit", d, none⟩ ∧
    (handleDeposit now pr (some d) sA).2.portfolio.trades.getLast? =
      some ⟨now, "BUY", d * 0.1, pr⟩ := by
  constructor
  · rw [deposit_pos now d sB hd]
    exact pushTxnB_head _ _
  · rw [handleDeposit_pos now pr d sA hd]
    exact pushTradeA_getLast _ _

/-- Witness for C9 at a one-coin deposit into the empty states. -/
theorem C9_deposit_trade_record_witness :
    (deposit 5 (some 1) (initB 0)).2.portfolio.trades.head? =
      some ⟨5, 5, "deposit", 1, none⟩ ∧
    (handleDeposit 5 true (some 1) (initA 0)).2.portfolio.trades.getLast? =
      some ⟨5, "BUY", 1 * 0.1, true⟩ :=
  C9_deposit_trade_record 1 5 true (initA 0) (initB 0) (by norm_num)

/-- C9 counterexample: a valid one-coin deposit in the class variant logs a
trade record whose kind is `"BUY"` (not `"deposit"`), whose amount is the
tenth `0.1` of the deposited `1`, and whose profit flag follows the random
draw (`true` for one draw, `false` for the other) instead of being null. -/
theorem C9_counterexample :
    (handleDeposit 5 true (some 1) (initA 0)).2.portfolio.trades.map
      TradeA.type = ["BUY"] ∧
    "BUY" ≠ "deposit" ∧
    (handleDeposit 5 true (some 1) (initA 0)).2.portfolio.trades.map
      TradeA.amount = [1 * 0.1] ∧
    (1 : ℝ) * 0.1 ≠ 1 ∧
    (handleDeposit 5 true (some 1) (initA 0)).2.portfolio.trades.map
      TradeA.profit = [true] ∧
    (handleDeposit 5 false (some 1) (initA 0)).2.portfolio.trades.map
      TradeA.profit = [false] := by
  rw [handleDeposit_pos 5 true 1 (initA 0) (by norm_num),
    handleDeposit_pos 5 false 1 (initA 0) (by norm_num)]
  refine ⟨?_, by simp, ?_, by norm_num, ?_, ?_⟩ <;>
    simp [simulateTrade, pushTradeA, depositPortfolioA, initA]

end AnomCat

end
